import Mathlib

/-!
Verification of the API-documentation generator in
`tornado_json/api_doc_gen.py`.

The Python source is shallowly embedded: every function of the module is
translated into a Lean definition of the same name, with Python strings
modelled as `String`, Python string operations modelled at the code-point
level (`String.data : List Char`), fallible code modelled in
`Except PyError`, and the external collaborators (the `jsonschema`
validator, the `json` serializer, the reflection facts about handler
classes) modelled as explicit data or function parameters.
-/

namespace TornadoJson

/-! ## JSON values and a model of Python's `json.dumps(·, indent=n)` -/

/-- JSON-serializable values (schemas and examples are such values; the
source treats them as opaque data handed to `jsonschema.validate` and
`json.dumps`).  Numbers are modelled as integers. -/
inductive Json where
  | null
  | bool (b : Bool)
  | num (n : Int)
  | str (s : String)
  | arr (elems : List Json)
  | obj (members : List (String × Json))

/-- A run of `n` spaces, Python's `" " * n`. -/
def spaces (n : Nat) : String := String.mk (List.replicate n ' ')

/-- Model of the escaping done by Python's `json` serializer for one
character (restricted to the common escapes). -/
def json_escape_char (c : Char) : String :=
  if c = '"' then "\\\""
  else if c = '\\' then "\\\\"
  else if c = '\n' then "\\n"
  else if c = '\t' then "\\t"
  else if c = '\r' then "\\r"
  else String.mk [c]

/-- Model of Python `json` string escaping. -/
def json_escape (s : String) : String :=
  String.join (s.data.map json_escape_char)

/-- Python `sep.join(strings)` on code points. -/
def pyJoin (sep : String) (L : List String) : String :=
  String.mk (List.intercalate sep.data (L.map String.data))

mutual

/-- Model of Python `json.dumps(v, indent=ind)` at nesting depth `d`:
scalars print inline, nonempty containers print one element per line,
each line indented by `ind * depth` spaces. -/
def json_dumps_val (ind d : Nat) : Json → String
  | .null => "null"
  | .bool b => cond b "true" "false"
  | .num n => n.repr
  | .str s => "\"" ++ json_escape s ++ "\""
  | .arr [] => "[]"
  | .arr (x :: xs) =>
      "[\n" ++ pyJoin ",\n" (json_dumps_items ind (d + 1) (x :: xs)) ++
        "\n" ++ spaces (ind * d) ++ "]"
  | .obj [] => "\x7b\x7d"
  | .obj (kv :: kvs) =>
      "\x7b\n" ++ pyJoin ",\n" (json_dumps_pairs ind (d + 1) (kv :: kvs)) ++
        "\n" ++ spaces (ind * d) ++ "\x7d"

/-- The array elements of a `json.dumps` rendering, one string per item. -/
def json_dumps_items (ind d : Nat) : List Json → List String
  | [] => []
  | x :: xs => (spaces (ind * d) ++ json_dumps_val ind d x) :: json_dumps_items ind d xs

/-- The object members of a `json.dumps` rendering, one string per pair. -/
def json_dumps_pairs (ind d : Nat) : List (String × Json) → List String
  | [] => []
  | (k, v) :: kvs =>
      (spaces (ind * d) ++ "\"" ++ json_escape k ++ "\": " ++ json_dumps_val ind d v) ::
        json_dumps_pairs ind d kvs

end

/-- Python `json.dumps(j, indent=indent)`. -/
def json_dumps (j : Json) (indent : Nat) : String := json_dumps_val indent 0 j

/-! ## Python string operations used by the source, at code-point level

These model the exact Python operations; they are stated over
`String.data` so that they compute and connect to the list lemmas of the
library (`String.split_of_valid` shows `List.splitOnP` on `.data` is
exactly `String.split`). -/

/-- Python `s.split("\n")`. -/
def pySplitNl (s : String) : List String :=
  (List.splitOnP (fun c => c == '\n') s.data).map String.mk

/-- Python `s[n:]` (slicing by code points). -/
def pySlice (s : String) (n : Nat) : String := String.mk (s.data.drop n)

/-- Python `s.upper()` (ASCII). -/
def pyUpper (s : String) : String := String.mk (s.data.map Char.toUpper)

/-- Python whitespace, the set stripped by `str.rstrip()`. -/
def pyIsSpace (c : Char) : Bool :=
  c == ' ' || c == '\t' || c == '\n' || c == '\r' || c == '\x0b' || c == '\x0c'

/-- Python `s.rstrip()`. -/
def py_rstrip (s : String) : String := String.mk (s.data.rdropWhile pyIsSpace)

/-- Python `s.splitlines()` for strings whose only line-break character
is `'\n'` (the only one arising in the source's templates): like
`split("\n")` except that the empty string has no lines and a trailing
newline does not open a final empty line. -/
def py_splitlines (s : String) : List String :=
  if s = "" then []
  else if s.data.getLast? = some '\n' then (pySplitNl s).dropLast
  else pySplitNl s

/-! ## Data model

`Handler`, `Member` and `Method` model the reflective view the source
takes of a request-handler class: `vars(rh)` is an insertion-ordered
mapping of member names to values (`members`), a member is either a
method carrying an attached `input_schema` (set by the
`schema.validate` decorator), a method without one, or a plain
attribute.  `is_method` (from `tornado_json.utils`, not in `src/`) and
the `issubclass(rh, APIHandler)` capability test (`APIHandler` is in
`tornado_json.requesthandlers`, not in `src/`) are modelled from the
spec as the `Member` distinction and the `isAPIHandler` marker. -/

/-- A documented method: its `__name__`, the four optional attached
values, and its (already cleaned) docstring, `inspect.getdoc`. -/
structure Method where
  name : String
  input_schema : Json
  output_schema : Json
  input_example : Option Json
  output_example : Option Json
  docstring : String

/-- One entry of `vars(rh)`. -/
inductive Member where
  | meth (m : Method)
  | methNoSchema
  | attr

/-- Modelled from the spec: a handler type, with its `__name__`, its
own declared members in declaration order (`vars(rh)`), and the
documentable-endpoint capability `issubclass(rh, APIHandler)`. -/
structure Handler where
  name : String
  members : List (String × Member)
  isAPIHandler : Bool

/-- Modelled from the spec: `tornado_json.constants.HTTP_METHODS`, the
fixed closed set of recognized HTTP verb names (file not in `src/`). -/
def HTTP_METHODS : List String :=
  ["get", "put", "post", "patch", "delete", "head", "options"]

/-- The example/schema slot kind; the source passes the strings
`"input"`/`"output"` and asserts membership in that pair, which this
closed type encodes. -/
inductive Slot where
  | input
  | output

/-- The slot name as the source's string. -/
def Slot.str : Slot → String
  | .input => "input"
  | .output => "output"

/-- Python `slot.capitalize()`. -/
def Slot.capitalized : Slot → String
  | .input => "Input"
  | .output => "Output"

/-- Python `getattr(method, example_type + "_example")`. -/
def slotExample (m : Method) : Slot → Option Json
  | .input => m.input_example
  | .output => m.output_example

/-- Python `getattr(method, example_type + "_schema")`. -/
def slotSchema (m : Method) : Slot → Json
  | .input => m.input_schema
  | .output => m.output_schema

/-- The exceptions the module can raise. -/
inductive PyError where
  | typeError (msg : String)
  | assertionError
  | validationError (msg : String)
  | valueError
  deriving DecidableEq

/-- The external `jsonschema.validate` collaborator, a black box taking
(example, schema) and either passing (`none`) or failing with a
diagnostic message (`some diag`, Python's `str(e)`). -/
def Validator : Type := Json → Json → Option String

/-- A route descriptor as accepted by `api_doc_gen`: the first two
elements of a tuple may be any Python values, modelled as the closed
union of the two kinds the pipeline can meet. -/
inductive RVal where
  | str (s : String)
  | handler (h : Handler)

/-- A route: a tuple of values, a `tornado.web.URLSpec` (an external
framework object, modelled as exposing its `regex.pattern` and
`handler_class` accessors), or any other object, of which only the type
name (`type(route).__name__`) is observable. -/
inductive Route where
  | tup (elems : List RVal)
  | urlspec (regex_pattern : String) (handler_class : Handler)
  | other (type_name : String)

/-! ## The source functions of `api_doc_gen.py` -/

/-- The message of the `ValidationError` re-raised by
`_validate_example`:
`"{}_example for {}.{} could not be validated.\n{}"`. -/
def validation_message (slot : Slot) (rh : Handler) (m : Method) (diag : String) : String :=
  Slot.str slot ++ "_example for " ++ rh.name ++ "." ++ m.name ++
    " could not be validated.\n" ++ diag

/-- `_validate_example(rh, method, example_type)`: returns the formatted
example if it exists and validates, `None` if absent, and raises a
`ValidationError` naming handler, method and slot otherwise. -/
def _validate_example (v : Validator) (rh : Handler) (m : Method) (slot : Slot) :
    Except PyError (Option String) :=
  match slotExample m slot with
  | none => .ok none
  | some exv =>
    match v exv (slotSchema m slot) with
    | some diag => .error (.validationError (validation_message slot rh m diag))
    | none => .ok (some (json_dumps exv 4))

/-- The membership test of the `_get_rh_methods` loop: keep a member
iff its key is an HTTP method name, it is a method, and it carries an
`input_schema` attribute. -/
def rh_member_filter : String × Member → Option (String × Method)
  | (k, .meth m) => if k ∈ HTTP_METHODS then some (k, m) else none
  | _ => none

/-- `_get_rh_methods(rh)`: all qualifying members of `vars(rh)`, in
`vars` (declaration) order. -/
def _get_rh_methods (rh : Handler) : List (String × Method) :=
  rh.members.filterMap rh_member_filter

/-- `_get_tuple_from_route(route)`: a tuple is unpacked after
`assert len(route) >= 2`; a `URLSpec` yields
`(route.regex.pattern, route.handler_class)`; anything else raises
`TypeError("Unknown route type '{}'")` naming the actual type. -/
def _get_tuple_from_route : Route → Except PyError (RVal × RVal)
  | .tup (a :: b :: _) => .ok (a, b)
  | .tup _ => .error .assertionError
  | .urlspec p h => .ok (.str p, .handler h)
  | .other tn => .error (.typeError ("Unknown route type '" ++ tn ++ "'"))

/-- The set of markdown literal characters escaped by
`_escape_markdown_literals`: `list("\\`*_{}[]()<>#+-.!:|")`. -/
def markdown_literals : List Char := "\\`*_\x7b\x7d[]()<>#+-.!:|".data

/-- `_escape_markdown_literals(string)`: prepend `\` to every literal,
joining the per-character results. -/
def _escape_markdown_literals (s : String) : String :=
  String.join (s.data.map (fun c =>
    if c ∈ markdown_literals then "\\" ++ String.mk [c] else String.mk [c]))

/-- The `indent_length` lambda of `cleandoc`:
`len(s) - len(s.lstrip(" "))`. -/
def indent_length (s : String) : Nat :=
  s.data.length - (s.data.dropWhile (fun c => c == ' ')).length

/-- `cleandoc(doc)`: strip from every line the minimum indentation of
the non-empty lines.  `min` over an empty sequence raises
`ValueError`. -/
def cleandoc (doc : String) : Except PyError String :=
  let lines := pySplitNl doc
  match ((lines.filter (fun s => s != "")).map indent_length).min? with
  | none => .error .valueError
  | some indent => .ok (pyJoin "\n" (lines.map (fun s => pySlice s indent)))

/-- `add_indent(string, indent)`: indent every line but the first by
`indent` spaces.  (`split` never returns an empty list, so the `[]`
branch is unreachable.) -/
def add_indent (string : String) (indent : Nat) : String :=
  match pySplitNl string with
  | [] => ""
  | first :: rest => pyJoin "\n" (first :: rest.map (fun s => spaces indent ++ s))

/-- `_get_example_doc(rh, method, type)`: empty when no example (the
source's falsy test also covers an empty formatted string); otherwise
the example block template, cleaned.  The source's
`assert type in ("input", "output")` is encoded by the `Slot` type. -/
def _get_example_doc (v : Validator) (rh : Handler) (m : Method) (slot : Slot) :
    Except PyError String := do
  let exm ← _validate_example v rh m slot
  match exm with
  | none => return ""
  | some ex =>
    if ex = "" then return ""
    else
      cleandoc ("\n    **" ++ slot.capitalized ++ " Example**\n    ```json\n    " ++
        add_indent ex 4 ++ "\n    ```\n    ")

/-- `_get_input_example(rh, method)`. -/
def _get_input_example (v : Validator) (rh : Handler) (m : Method) : Except PyError String :=
  _get_example_doc v rh m .input

/-- `_get_output_example(rh, method)`. -/
def _get_output_example (v : Validator) (rh : Handler) (m : Method) : Except PyError String :=
  _get_example_doc v rh m .output

/-- `_get_schema_doc(schema, type)`. -/
def _get_schema_doc (schema : Json) (slot : Slot) : Except PyError String :=
  cleandoc ("\n    **" ++ slot.capitalized ++ " Schema**\n    ```json\n    " ++
    add_indent (json_dumps schema 4) 4 ++ "\n    ```\n    ")

/-- `_get_input_schema_doc(method)`. -/
def _get_input_schema_doc (m : Method) : Except PyError String :=
  _get_schema_doc m.input_schema .input

/-- `_get_output_schema_doc(method)`. -/
def _get_output_schema_doc (m : Method) : Except PyError String :=
  _get_schema_doc m.output_schema .output

/-- `_get_notes(method)`. -/
def _get_notes (m : Method) : Except PyError String :=
  cleandoc ("\n    **Notes**\n\n    " ++ add_indent m.docstring 4 ++ "\n    ")

/-- `_get_method_doc(rh, method_name, method)`: fill the method
template (the `.format` keyword arguments evaluate in source order:
input schema, output schema, notes, input example, output example),
right-strip every line, and clean the result. -/
def _get_method_doc (v : Validator) (rh : Handler) (method_name : String) (m : Method) :
    Except PyError String := do
  let input_schema ← _get_input_schema_doc m
  let output_schema ← _get_output_schema_doc m
  let notes ← _get_notes m
  let input_example ← _get_input_example v rh m
  let output_example ← _get_output_example v rh m
  let res := "## " ++ pyUpper method_name ++ "\n\n    " ++ input_schema ++ "\n    " ++
    input_example ++ "\n    " ++ output_schema ++ "\n    " ++ output_example ++
    "\n    " ++ notes ++ "\n    "
  cleandoc (pyJoin "\n" ((py_splitlines res).map py_rstrip))

/-- `_get_rh_doc(rh)`: the method sections, joined by a blank line, in
`_get_rh_methods` order. -/
def _get_rh_doc (v : Validator) (rh : Handler) : Except PyError String := do
  let docs ← (_get_rh_methods rh).mapM (fun nm => _get_method_doc v rh nm.1 nm.2)
  return pyJoin "\n\n" docs

/-- `_get_route_doc(url, rh)`: the route section -- heading with the
escaped pattern, the fixed Content-Type line, the method sections. -/
def _get_route_doc (v : Validator) (url : String) (rh : Handler) : Except PyError String := do
  let body ← _get_rh_doc v rh
  return "\n# " ++ _escape_markdown_literals url ++
    "\n\n    Content-Type: application/json\n\n" ++ body ++ "\n"

/-- After normalization the pipeline consumes the pair as
`(pattern : str, handler : class)`: Python's dynamic typing raises a
`TypeError` downstream (in the sort's key comparison or in
`issubclass`) for any other shape, modelled here eagerly. -/
def as_route_pair : RVal × RVal → Except PyError (String × Handler)
  | (.str p, .handler h) => .ok (p, h)
  | _ => .error (.typeError "route pattern or handler has wrong type")

/-- `map(_get_tuple_from_route, routes)` followed by the dynamic-typing
step above. -/
def normalized_routes (routes : List Route) : Except PyError (List (String × Handler)) :=
  routes.mapM (fun r => do
    let t ← _get_tuple_from_route r
    as_route_pair t)

/-- The comparison used by `sorted(routes, key=lambda a: a[0])`:
patterns compared lexicographically by code point. -/
def route_le (a b : String × Handler) : Prop := a.1.data ≤ b.1.data

instance route_le_dec : DecidableRel route_le := fun a b =>
  (inferInstance : Decidable (a.1.data ≤ b.1.data))

instance route_le_total : IsTotal (String × Handler) route_le :=
  ⟨fun a b => le_total a.1.data b.1.data⟩

instance route_le_trans : IsTrans (String × Handler) route_le :=
  ⟨fun _ _ _ h h' => le_trans h h'⟩

/-- `sorted(routes, key=lambda a: a[0])`: Python's `sorted` is a stable
sort, and any stable sort by a total preorder produces the same list,
here given by insertion sort. -/
def sorted_routes (routes : List Route) : Except PyError (List (String × Handler)) :=
  (normalized_routes routes).map (fun ps => List.insertionSort route_le ps)

/-- `api_doc_gen(routes)` up to (but not including) the file write: the
`documentation` list, one Markdown section per API-handler route, in
sorted order. -/
def api_doc_gen (v : Validator) (routes : List Route) : Except PyError (List String) := do
  let ps ← sorted_routes routes
  (ps.filter (fun p => p.2.isAPIHandler)).mapM (fun p => _get_route_doc v p.1 p.2)

/-- `_write_docs_to_file(documentation)`: the full text written to
`API_Documentation.md` (the file system write itself is out of
scope). -/
def _write_docs_to_file (documentation : List String) : String :=
  "**This documentation is automatically generated.**\n\n" ++
    "**Output schemas only represent `data` and not the full output; " ++
    "see output examples and the JSend specification.**" ++
    pyJoin "\n<br>\n<br>\n" documentation

/-! ## Auxiliary definitions for the statements -/

instance exceptDecEq {ε α : Type} [DecidableEq ε] [DecidableEq α] : DecidableEq (Except ε α) :=
  fun a b =>
    match a, b with
    | .ok x, .ok y =>
        if h : x = y then .isTrue (by rw [h])
        else .isFalse (by intro hc; cases hc; exact h rfl)
    | .error x, .error y =>
        if h : x = y then .isTrue (by rw [h])
        else .isFalse (by intro hc; cases hc; exact h rfl)
    | .ok _, .error _ => .isFalse (by intro hc; cases hc)
    | .error _, .ok _ => .isFalse (by intro hc; cases hc)

/-- `needle` occurs as a contiguous substring of `hay`. -/
def str_contains (needle hay : String) : Prop :=
  ∃ pre suf, pre ++ needle.data ++ suf = hay.data

/-- The specification's description of the markdown escaper, transcribed
literally: each character of the literal set is emitted behind exactly
one backslash, all other characters verbatim, in order. -/
def escapeSpec (cs : List Char) : List Char :=
  cs.flatMap (fun c => if c ∈ markdown_literals then ['\\', c] else [c])

/-- Whether a result is a `TypeError`. -/
def is_type_error : Except PyError (RVal × RVal) → Bool
  | .error (.typeError _) => true
  | _ => false

/-- The verb headings (`## ...` lines) of a rendered handler document,
in order of appearance. -/
def section_headings (s : String) : List String :=
  (pySplitNl s).filter (fun l => l.data.take 3 == "## ".data)

/-- A validator that accepts everything (used to instantiate the
external black box in concrete scenarios). -/
def validator_ok : Validator := fun _ _ => none

/-- A validator that rejects everything with a fixed diagnostic. -/
def validator_reject : Validator := fun _ _ => some "is not of type 'integer'"

/-! ## Concrete scenario data -/

/-- A minimal documented `post` method. -/
def method_post_demo : Method := ⟨"post", Json.null, Json.null, none, none, "p"⟩

/-- A minimal documented `get` method. -/
def method_get_demo : Method := ⟨"get", Json.null, Json.null, none, none, "g"⟩

/-- A handler declaring `post` before `get` (member-table order is not
alphabetical). -/
def handler_pg : Handler :=
  ⟨"PG", [("post", Member.meth method_post_demo), ("get", Member.meth method_get_demo)], true⟩

/-- A handler declaring `get` before `post` (member-table order happens
to be alphabetical). -/
def handler_gp : Handler :=
  ⟨"GP", [("get", Member.meth method_get_demo), ("post", Member.meth method_post_demo)], true⟩

/-- A documentable handler with no members at all. -/
def handler_empty : Handler := ⟨"E", [], true⟩

/-- Three member-less documentable handlers for the route-ordering
scenario. -/
def handler_a : Handler := ⟨"A", [], true⟩

def handler_b : Handler := ⟨"B", [], true⟩

def handler_c : Handler := ⟨"C", [], true⟩

/-- Routes supplied in the order `/c`, `/a`, `/b`. -/
def demo_routes_cab : List Route :=
  [Route.tup [RVal.str "/c", RVal.handler handler_c],
   Route.tup [RVal.str "/a", RVal.handler handler_a],
   Route.tup [RVal.str "/b", RVal.handler handler_b]]

/-- The same routes supplied in the order `/a`, `/c`, `/b`. -/
def demo_routes_acb : List Route :=
  [Route.tup [RVal.str "/a", RVal.handler handler_a],
   Route.tup [RVal.str "/c", RVal.handler handler_c],
   Route.tup [RVal.str "/b", RVal.handler handler_b]]

/-- A `get` method whose input example does not satisfy its input
schema (the spec's own test scenario). -/
def method_bad_example : Method :=
  ⟨"get", Json.obj [("type", Json.str "integer")], Json.null,
    some (Json.str "not an integer"), none, "d"⟩

/-- A documentable handler carrying `method_bad_example`. -/
def handler_bad : Handler :=
  ⟨"ExampleHandler", [("get", Member.meth method_bad_example)], true⟩

/-- Extract the per-method documents of a handler (empty on error);
used to name concrete values in closed statements. -/
def rh_docs_of (v : Validator) (rh : Handler) : List String :=
  match (_get_rh_methods rh).mapM (fun nm => _get_method_doc v rh nm.1 nm.2) with
  | .ok d => d
  | .error _ => []

/-- Extract the sorted route list (empty on error); used to name
concrete values in closed statements. -/
def sorted_routes_of (routes : List Route) : List (String × Handler) :=
  match sorted_routes routes with
  | .ok p => p
  | .error _ => []

/-! ## Helper lemmas -/

theorem except_bind_ok {α β : Type} (a : α) (f : α → Except PyError β) :
    (Except.ok a >>= f) = f a := rfl

theorem except_bind_error {α β : Type} (e : PyError) (f : α → Except PyError β) :
    ((Except.error e : Except PyError α) >>= f) = Except.error e := rfl

theorem except_pure_eq_ok {α : Type} (a : α) : (pure a : Except PyError α) = Except.ok a := rfl

theorem pyJoin_data (sep : String) (L : List String) :
    (pyJoin sep L).data = List.intercalate sep.data (L.map String.data) := rfl

theorem spaces_data (n : Nat) : (spaces n).data = List.replicate n ' ' := rfl

theorem pySlice_data (s : String) (n : Nat) : (pySlice s n).data = s.data.drop n := rfl

theorem map_mk_map_data (L : List String) : (L.map String.data).map String.mk = L := by
  rw [List.map_map]
  have h : (String.mk ∘ String.data) = id := funext fun _ => rfl
  rw [h, List.map_id]

theorem pySplitNl_pyJoin (L : List String) (hne : L ≠ [])
    (hnl : ∀ l ∈ L, ('\n' : Char) ∉ l.data) :
    pySplitNl (pyJoin "\n" L) = L := by
  have hx : ∀ l ∈ L.map String.data, ('\n' : Char) ∉ l := by
    intro l hl
    obtain ⟨s, hs, rfl⟩ := List.mem_map.mp hl
    exact hnl s hs
  have hmapne : L.map String.data ≠ [] := by
    simpa using hne
  have hsplit := List.splitOn_intercalate (L.map String.data) '\n' hx hmapne
  unfold pySplitNl
  rw [pyJoin_data]
  rw [show List.splitOnP (fun c => c == '\n')
        (List.intercalate ("\n".data) (L.map String.data)) =
      List.splitOn '\n' (List.intercalate ['\n'] (L.map String.data)) from rfl]
  rw [show List.intercalate ['\n'] (L.map String.data) =
      [('\n' : Char)].intercalate (L.map String.data) from rfl]
  rw [hsplit, map_mk_map_data]

theorem intercalate_nl_singleton (x : List Char) : List.intercalate ['\n'] [x] = x := by
  simp [List.intercalate]

theorem intercalate_nl_cons_cons (x y : List Char) (t : List (List Char)) :
    List.intercalate ['\n'] (x :: y :: t) =
      x ++ ['\n'] ++ List.intercalate ['\n'] (y :: t) := by
  simp [List.intercalate]

theorem forall_mem_intercalate_nl :
    ∀ (ps : List (List Char)), (∀ p ∈ ps, p = []) →
      ∀ a ∈ List.intercalate ['\n'] ps, a = '\n' := by
  intro ps
  induction ps with
  | nil => intro _ a ha; simp [List.intercalate] at ha
  | cons p t ih =>
    intro h a ha
    cases t with
    | nil =>
      rw [intercalate_nl_singleton, h p (by simp)] at ha
      cases ha
    | cons q t' =>
      rw [intercalate_nl_cons_cons, h p (by simp)] at ha
      simp only [List.nil_append, List.mem_append, List.mem_singleton] at ha
      cases ha with
      | inl h1 => exact h1
      | inr h2 => exact ih (fun x hx => h x (by simp [hx])) a h2

theorem cleandoc_error_of_all_empty (doc : String)
    (h : ∀ l ∈ pySplitNl doc, l = "") : cleandoc doc = .error .valueError := by
  have hf : (pySplitNl doc).filter (fun s => s != "") = [] := by
    rw [List.filter_eq_nil_iff]
    intro a ha
    simp [h a ha]
  simp [cleandoc, hf]

theorem cleandoc_ok_of_piece (doc : String)
    (h : ∃ l ∈ pySplitNl doc, l ≠ "") : ∃ d, cleandoc doc = .ok d := by
  obtain ⟨l, hl, hlne⟩ := h
  have hf : l ∈ (pySplitNl doc).filter (fun s => s != "") := by
    rw [List.mem_filter]
    exact ⟨hl, by simpa using hlne⟩
  cases hmin : (((pySplitNl doc).filter (fun s => s != "")).map indent_length).min? with
  | none =>
    rw [List.min?_eq_none_iff, List.map_eq_nil_iff] at hmin
    rw [hmin] at hf
    cases hf
  | some k =>
    refine ⟨pyJoin "\n" ((pySplitNl doc).map (fun s => pySlice s k)), ?_⟩
    simp [cleandoc, hmin]

theorem cleandoc_ok_of_char (doc : String) (c : Char) (hc : c ∈ doc.data)
    (hne : c ≠ '\n') : ∃ d, cleandoc doc = .ok d := by
  apply cleandoc_ok_of_piece
  by_contra hall
  push_neg at hall
  have hpieces : ∀ p ∈ List.splitOnP (fun c => c == '\n') doc.data, p = [] := by
    intro p hp
    have hmem : String.mk p ∈ pySplitNl doc := List.mem_map_of_mem String.mk hp
    have := hall (String.mk p) hmem
    have hdata : (String.mk p).data = ("" : String).data := by rw [this]
    simpa using hdata
  have hinter : [('\n' : Char)].intercalate
      (List.splitOn '\n' doc.data) = doc.data :=
    List.intercalate_splitOn doc.data '\n'
  have hallnl : ∀ a ∈ doc.data, a = '\n' := by
    intro a ha
    rw [← hinter] at ha
    exact forall_mem_intercalate_nl _ hpieces a ha
  exact hne (hallnl c hc)

theorem mem_data_append_left (s t : String) (c : Char) (h : c ∈ s.data) :
    c ∈ (s ++ t).data := by
  rw [String.data_append]
  exact List.mem_append_left _ h

theorem mapM_ok_eq_filterMap {α β : Type} (f : α → Except PyError β) :
    ∀ (l : List α) (q : List β), l.mapM f = Except.ok q →
      q = l.filterMap (fun a => (f a).toOption) := by
  intro l
  induction l with
  | nil =>
    intro q h
    rw [List.mapM_nil] at h
    cases h
    rfl
  | cons a t ih =>
    intro q h
    rw [List.mapM_cons] at h
    cases hfa : f a with
    | error e => rw [hfa, except_bind_error] at h; cases h
    | ok b =>
      rw [hfa, except_bind_ok] at h
      cases hmt : t.mapM f with
      | error e => rw [hmt, except_bind_error] at h; cases h
      | ok bs =>
        rw [hmt, except_bind_ok, except_pure_eq_ok] at h
        cases h
        have hopt : (f a).toOption = some b := by rw [hfa]; rfl
        simp only [List.filterMap_cons, hopt]
        rw [← ih bs hmt]

theorem indent_length_eq (s : String) :
    indent_length s = (s.data.takeWhile (fun c => c == ' ')).length := by
  unfold indent_length
  have hlen : s.data.length =
      (s.data.takeWhile (fun c => c == ' ')).length +
        (s.data.dropWhile (fun c => c == ' ')).length := by
    conv_lhs => rw [← List.takeWhile_append_dropWhile (fun c => c == ' ') s.data]
    rw [List.length_append]
  omega

theorem spaces_append_slice (s : String) (k : Nat) (h : k ≤ indent_length s) :
    spaces k ++ pySlice s k = s := by
  rw [String.ext_iff, String.data_append, spaces_data, pySlice_data]
  have htake : s.data.take k = List.replicate k ' ' := by
    rw [indent_length_eq] at h
    have h1 : s.data.take k = (s.data.takeWhile (fun c => c == ' ')).take k := by
      conv_lhs => rw [← List.takeWhile_append_dropWhile (fun c => c == ' ') s.data]
      exact List.take_append_of_le_length h
    rw [h1, List.eq_replicate_iff]
    refine ⟨by rw [List.length_take]; omega, ?_⟩
    intro b hb
    have hmem := List.take_subset _ _ hb
    have := List.mem_takeWhile_imp hmem
    simpa using this
  calc List.replicate k ' ' ++ s.data.drop k
      = s.data.take k ++ s.data.drop k := by rw [htake]
    _ = s.data := List.take_append_drop k s.data

theorem rh_member_filter_fst (kv : String × Member) (r : String × Method)
    (h : rh_member_filter kv = some r) : r.1 = kv.1 := by
  obtain ⟨k, v⟩ := kv
  cases v with
  | meth m =>
    simp only [rh_member_filter] at h
    split at h
    · cases h; rfl
    · cases h
  | methNoSchema => simp [rh_member_filter] at h
  | attr => simp [rh_member_filter] at h

theorem filterMap_rh_fst_sublist :
    ∀ (l : List (String × Member)),
      ((l.filterMap rh_member_filter).map Prod.fst).Sublist (l.map Prod.fst) := by
  intro l
  induction l with
  | nil => simp
  | cons kv t ih =>
    rw [List.filterMap_cons]
    cases hk : rh_member_filter kv with
    | none =>
      simp only [List.map_cons]
      exact ih.cons _
    | some r =>
      simp only [List.map_cons]
      rw [rh_member_filter_fst kv r hk]
      exact ih.cons₂ _

/-! ## Claims -/

/-- C5 (counterexample): a tuple route of length 0 or 1 does not
produce a `TypeError` as the claim requires; it fails the
`assert len(route) >= 2` instead, raising an `AssertionError`. -/
theorem short_tuple_asserts_cex :
    is_type_error (_get_tuple_from_route (Route.tup [])) = false ∧
    _get_tuple_from_route (Route.tup []) = Except.error PyError.assertionError ∧
    _get_tuple_from_route (Route.tup [RVal.str "/a"]) = Except.error PyError.assertionError :=
  ⟨rfl, rfl, rfl⟩

/-- C5 (amended): a route descriptor that is neither a tuple nor a
route-spec object raises a `TypeError` whose message names the actual
type encountered; a tuple of length 0 or 1, however, fails the length
assertion, raising an `AssertionError` rather than a `TypeError`. -/
theorem route_shape_errors :
    (∀ tn : String,
      _get_tuple_from_route (Route.other tn) =
        Except.error (PyError.typeError ("Unknown route type '" ++ tn ++ "'")) ∧
      str_contains tn ("Unknown route type '" ++ tn ++ "'")) ∧
    (∀ elems : List RVal, elems.length < 2 →
      _get_tuple_from_route (Route.tup elems) = Except.error PyError.assertionError) := by
  constructor
  · intro tn
    refine ⟨rfl, "Unknown route type '".data, "'".data, ?_⟩
    simp [String.data_append]
  · intro elems h
    match elems with
    | [] => rfl
    | [_] => rfl
    | a :: b :: t =>
      simp only [List.length_cons] at h
      omega

/-- Witness for C5's amended theorem at concrete inputs. -/
theorem route_shape_errors_witness :
    (_get_tuple_from_route (Route.other "list") =
        Except.error (PyError.typeError ("Unknown route type '" ++ "list" ++ "'")) ∧
      str_contains "list" ("Unknown route type '" ++ "list" ++ "'")) ∧
    (([] : List RVal).length < 2 ∧
      _get_tuple_from_route (Route.tup []) = Except.error PyError.assertionError) :=
  ⟨route_shape_errors.1 "list", by decide, route_shape_errors.2 [] (by decide)⟩

/-- C6: the Route Normalizer recovers exactly the (pattern, handler)
pair a well-formed route descriptor was constructed from, for the
tuple shape (extra elements ignored) and for the route-spec shape
alike. -/
theorem normalizer_recovers_pattern_handler :
    ∀ (p : String) (h : Handler) (extras : List RVal),
      _get_tuple_from_route (Route.tup (RVal.str p :: RVal.handler h :: extras)) =
        Except.ok (RVal.str p, RVal.handler h) ∧
      _get_tuple_from_route (Route.urlspec p h) = Except.ok (RVal.str p, RVal.handler h) ∧
      as_route_pair (RVal.str p, RVal.handler h) = Except.ok (p, h) :=
  fun _ _ _ => ⟨rfl, rfl, rfl⟩

/-- C7: the markdown escaper emits, in order, every input character,
with each character of the literal set prefixed by exactly one
backslash and every other character verbatim -- that is, it agrees with
the specification's description `escapeSpec`, transcribed literally. -/
theorem escaper_matches_spec :
    ∀ s : String, (_escape_markdown_literals s).data = escapeSpec s.data := by
  intro s
  unfold _escape_markdown_literals escapeSpec
  rw [String.join_eq]
  rw [show (String.mk ((List.map String.data
      (s.data.map (fun c => if c ∈ markdown_literals then "\\" ++ String.mk [c]
        else String.mk [c]))).flatten)).data =
    (List.map String.data (s.data.map (fun c => if c ∈ markdown_literals
      then "\\" ++ String.mk [c] else String.mk [c]))).flatten from rfl]
  rw [List.flatMap_def, List.map_map]
  congr 1
  apply List.map_congr_left
  intro c _
  by_cases hc : c ∈ markdown_literals
  · simp [hc, Function.comp, String.data_append]
  · simp [hc, Function.comp]

/-- C8: an absent example yields an absent result without error and an
example block that renders to the empty string; a present example that
validates yields the example pretty-printed as JSON with 4-space
indentation. -/
theorem example_slot_rendering :
    ∀ (v : Validator) (rh : Handler) (m : Method) (slot : Slot),
      (slotExample m slot = none →
        _validate_example v rh m slot = Except.ok none ∧
        _get_example_doc v rh m slot = Except.ok "") ∧
      (∀ ex : Json, slotExample m slot = some ex →
        v ex (slotSchema m slot) = none →
        _validate_example v rh m slot = Except.ok (some (json_dumps ex 4))) := by
  intro v rh m slot
  constructor
  · intro h
    have h1 : _validate_example v rh m slot = Except.ok none := by
      unfold _validate_example
      rw [h]
    refine ⟨h1, ?_⟩
    unfold _get_example_doc
    rw [h1, except_bind_ok]
    rfl
  · intro ex h1 h2
    simp only [_validate_example, h1, h2]

/-- Witness for C8 at concrete inputs: a method without an input
example, and a method whose input example passes the validator. -/
theorem example_slot_rendering_witness :
    (slotExample method_get_demo Slot.input = none ∧
      _validate_example validator_ok handler_pg method_get_demo Slot.input = Except.ok none ∧
      _get_example_doc validator_ok handler_pg method_get_demo Slot.input = Except.ok "") ∧
    (slotExample method_bad_example Slot.input = some (Json.str "not an integer") ∧
      validator_ok (Json.str "not an integer") (slotSchema method_bad_example Slot.input) = none ∧
      _validate_example validator_ok handler_bad method_bad_example Slot.input =
        Except.ok (some (json_dumps (Json.str "not an integer") 4))) := by
  refine ⟨⟨rfl, ?_, ?_⟩, rfl, rfl, ?_⟩
  · exact ((example_slot_rendering validator_ok handler_pg method_get_demo Slot.input).1 rfl).1
  · exact ((example_slot_rendering validator_ok handler_pg method_get_demo Slot.input).1 rfl).2
  · exact (example_slot_rendering validator_ok handler_bad method_bad_example Slot.input).2
      (Json.str "not an integer") rfl rfl

/-- C10: `cleandoc` is not total: on any input all of whose lines are
empty -- in particular the empty string and a string of only newlines
-- the `min` over zero non-empty lines raises `ValueError`; it returns
a string whenever at least one line is non-empty. -/
theorem cleandoc_partiality :
    cleandoc "" = Except.error PyError.valueError ∧
    cleandoc "\n\n" = Except.error PyError.valueError ∧
    (∀ doc : String, (∀ l ∈ pySplitNl doc, l = "") →
      cleandoc doc = Except.error PyError.valueError) ∧
    (∀ doc : String, (∃ l ∈ pySplitNl doc, l ≠ "") →
      ∃ s, cleandoc doc = Except.ok s) :=
  ⟨by decide, by decide, cleandoc_error_of_all_empty, cleandoc_ok_of_piece⟩

/-- Witness for C10 at concrete inputs: `"\n"` (all lines empty) fails,
`" a"` (one non-empty line) succeeds. -/
theorem cleandoc_partiality_witness :
    (∀ l ∈ pySplitNl "\n", l = "") ∧
    cleandoc "\n" = Except.error PyError.valueError ∧
    (∃ l ∈ pySplitNl " a", l ≠ "") ∧
    (∃ s, cleandoc " a" = Except.ok s) :=
  ⟨by decide, cleandoc_partiality.2.2.1 "\n" (by decide), by decide,
    cleandoc_partiality.2.2.2 " a" (by decide)⟩

/-- C2 (counterexample): a handler declaring `post` before `get`
renders its method sections in that declaration order, `## POST` before
`## GET`, not in the alphabetical order the claim requires. -/
theorem method_order_follows_declaration_cex :
    (_get_rh_doc validator_ok handler_pg).map section_headings =
      Except.ok ["## POST", "## GET"] ∧
    (["## POST", "## GET"] : List String) ≠ ["## GET", "## POST"] :=
  ⟨by decide, by decide⟩

/-- C2 (amended): the per-method sections appear in the order the
scanner enumerates the class member table (declaration order), with no
alphabetical reordering: the scanner's verb list is a sublist of the
member-name list, the rendered route body is the join of the per-method
documents in exactly that order, and for a handler declared in
alphabetical order the output order coincides with alphabetical. -/
theorem method_sections_follow_member_order :
    (∀ rh : Handler,
      ((_get_rh_methods rh).map Prod.fst).Sublist (rh.members.map Prod.fst)) ∧
    (∀ (v : Validator) (rh : Handler) (docs : List String),
      ((_get_rh_methods rh).mapM (fun nm => _get_method_doc v rh nm.1 nm.2)) =
          Except.ok docs →
      _get_rh_doc v rh = Except.ok (pyJoin "\n\n" docs)) ∧
    ((_get_rh_doc validator_ok handler_gp).map section_headings =
      Except.ok ["## GET", "## POST"]) := by
  refine ⟨fun rh => filterMap_rh_fst_sublist rh.members, ?_, by decide⟩
  intro v rh docs h
  unfold _get_rh_doc
  rw [h, except_bind_ok, except_pure_eq_ok]

/-- Witness for C2's amended theorem at a concrete handler. -/
theorem method_sections_follow_member_order_witness :
    ((_get_rh_methods handler_gp).mapM
        (fun nm => _get_method_doc validator_ok handler_gp nm.1 nm.2)) =
      Except.ok (rh_docs_of validator_ok handler_gp) ∧
    _get_rh_doc validator_ok handler_gp =
      Except.ok (pyJoin "\n\n" (rh_docs_of validator_ok handler_gp)) :=
  ⟨by decide,
    method_sections_follow_member_order.2.1 validator_ok handler_gp _ (by decide)⟩

/-- C4 (counterexample): a documentable handler with no documented
methods still contributes a section -- with heading and Content-Type
line -- to the output document, not no section at all. -/
theorem empty_handler_still_renders_section_cex :
    api_doc_gen validator_ok [Route.tup [RVal.str "/x", RVal.handler handler_empty]] =
      Except.ok ["\n# /x\n\n    Content-Type: application/json\n\n\n"] ∧
    (["\n# /x\n\n    Content-Type: application/json\n\n\n"] : List String) ≠ [] :=
  ⟨by decide, by decide⟩

/-- C4 (amended): a documentable handler with no input-schema-carrying
methods contributes an empty-bodied but present section: its method
body renders to the empty string, and its route section consists of
exactly the heading and the Content-Type line. -/
theorem empty_handler_section_empty_but_present :
    ∀ (v : Validator) (rh : Handler), _get_rh_methods rh = [] →
      _get_rh_doc v rh = Except.ok "" ∧
      (∀ url : String, _get_route_doc v url rh =
        Except.ok ("\n# " ++ _escape_markdown_literals url ++
          "\n\n    Content-Type: application/json\n\n\n")) ∧
      (rh.isAPIHandler = true → ∀ p : String,
        api_doc_gen v [Route.tup [RVal.str p, RVal.handler rh]] =
          Except.ok ["\n# " ++ _escape_markdown_literals p ++
            "\n\n    Content-Type: application/json\n\n\n"]) := by
  intro v rh h
  have hdoc : _get_rh_doc v rh = Except.ok "" := by
    unfold _get_rh_doc
    rw [h, List.mapM_nil, except_pure_eq_ok, except_bind_ok, except_pure_eq_ok]
    rfl
  have hroute : ∀ url : String, _get_route_doc v url rh =
      Except.ok ("\n# " ++ _escape_markdown_literals url ++
        "\n\n    Content-Type: application/json\n\n\n") := by
    intro url
    unfold _get_route_doc
    rw [hdoc, except_bind_ok, except_pure_eq_ok]
    refine congrArg Except.ok ?_
    rw [String.ext_iff]
    simp [String.data_append]
  refine ⟨hdoc, hroute, ?_⟩
  intro hapi p
  have hnorm : normalized_routes [Route.tup [RVal.str p, RVal.handler rh]] =
      Except.ok [(p, rh)] := rfl
  have hsorted : sorted_routes [Route.tup [RVal.str p, RVal.handler rh]] =
      Except.ok [(p, rh)] := by
    unfold sorted_routes
    rw [hnorm]
    rfl
  unfold api_doc_gen
  rw [hsorted, except_bind_ok]
  rw [show List.filter (fun pr : String × Handler => pr.2.isAPIHandler) [(p, rh)] =
      [(p, rh)] from by simp [List.filter_cons, hapi]]
  rw [List.mapM_cons, List.mapM_nil]
  simp only [except_pure_eq_ok, except_bind_ok]
  rw [hroute p]
  rfl

/-- Witness for C4's amended theorem at the member-less handler. -/
theorem empty_handler_section_witness :
    _get_rh_methods handler_empty = [] ∧
    _get_rh_doc validator_ok handler_empty = Except.ok "" ∧
    _get_route_doc validator_ok "/x" handler_empty =
      Except.ok ("\n# " ++ _escape_markdown_literals "/x" ++
        "\n\n    Content-Type: application/json\n\n\n") ∧
    handler_empty.isAPIHandler = true ∧
    api_doc_gen validator_ok [Route.tup [RVal.str "/x", RVal.handler handler_empty]] =
      Except.ok ["\n# " ++ _escape_markdown_literals "/x" ++
        "\n\n    Content-Type: application/json\n\n\n"] := by
  have h := empty_handler_section_empty_but_present validator_ok handler_empty rfl
  exact ⟨rfl, h.1, h.2.1 "/x", rfl, h.2.2 rfl "/x"⟩

/-- C3: the route sections of the final document are ordered by
lexicographic string order of the route pattern: the sorted route list
is always pattern-sorted, the output is independent of the input order
whenever the patterns are pairwise distinct, and in particular routes
`/c`, `/a`, `/b` supplied in that order yield sections in the order
`/a`, `/b`, `/c`. -/
theorem route_sections_sorted_by_pattern :
    (∀ (routes : List Route) (ps : List (String × Handler)),
      sorted_routes routes = Except.ok ps →
      List.Sorted (fun a b : String × Handler => a.1 ≤ b.1) ps) ∧
    (∀ (v : Validator) (routes routes' : List Route)
        (ps ps' : List (String × Handler)),
      routes.Perm routes' →
      sorted_routes routes = Except.ok ps →
      sorted_routes routes' = Except.ok ps' →
      (ps.map Prod.fst).Nodup →
      api_doc_gen v routes = api_doc_gen v routes') ∧
    (api_doc_gen validator_ok demo_routes_cab =
      Except.ok ["\n# /a\n\n    Content-Type: application/json\n\n\n",
        "\n# /b\n\n    Content-Type: application/json\n\n\n",
        "\n# /c\n\n    Content-Type: application/json\n\n\n"]) := by
  refine ⟨?_, ?_, by decide⟩
  · intro routes ps hps
    unfold sorted_routes at hps
    cases hn : normalized_routes routes with
    | error e => rw [hn] at hps; simp [Except.map] at hps
    | ok qs =>
      rw [hn] at hps
      simp only [Except.map] at hps
      cases hps
      have hs := List.sorted_insertionSort route_le qs
      exact List.Pairwise.imp (fun hab => String.le_iff_toList_le.mpr hab) hs
  · intro v routes routes' ps ps' hperm h1 h2 hnodup
    have h1' := h1
    have h2' := h2
    unfold sorted_routes at h1 h2
    cases hn1 : normalized_routes routes with
    | error e => rw [hn1] at h1; simp [Except.map] at h1
    | ok qs =>
    cases hn2 : normalized_routes routes' with
    | error e => rw [hn2] at h2; simp [Except.map] at h2
    | ok qs' =>
    rw [hn1] at h1
    rw [hn2] at h2
    simp only [Except.map] at h1 h2
    have hq : qs = routes.filterMap (fun r =>
        ((do
          let t ← _get_tuple_from_route r
          as_route_pair t : Except PyError (String × Handler))).toOption) :=
      mapM_ok_eq_filterMap _ routes qs hn1
    have hq' : qs' = routes'.filterMap (fun r =>
        ((do
          let t ← _get_tuple_from_route r
          as_route_pair t : Except PyError (String × Handler))).toOption) :=
      mapM_ok_eq_filterMap _ routes' qs' hn2
    have hqperm : qs.Perm qs' := by
      rw [hq, hq']
      exact hperm.filterMap _
    cases h1
    cases h2
    have hpp : (List.insertionSort route_le qs).Perm (List.insertionSort route_le qs') :=
      ((List.perm_insertionSort route_le qs).trans hqperm).trans
        (List.perm_insertionSort route_le qs').symm
    have hs1 := List.sorted_insertionSort route_le qs
    have hs2 := List.sorted_insertionSort route_le qs'
    have hnodup' : ((List.insertionSort route_le qs').map Prod.fst).Nodup :=
      ((hpp.map Prod.fst).nodup_iff).mp hnodup
    have hne1 : List.Pairwise (fun a b : String × Handler => a.1 ≠ b.1)
        (List.insertionSort route_le qs) := List.pairwise_map.mp hnodup
    have hne2 : List.Pairwise (fun a b : String × Handler => a.1 ≠ b.1)
        (List.insertionSort route_le qs') := List.pairwise_map.mp hnodup'
    have hst1 : List.Pairwise (fun a b : String × Handler => a.1.data < b.1.data)
        (List.insertionSort route_le qs) :=
      List.Pairwise.imp
        (fun hab => lt_of_le_of_ne hab.1 (fun hdeq => hab.2 (String.ext_iff.mpr hdeq)))
        (hs1.and hne1)
    have hst2 : List.Pairwise (fun a b : String × Handler => a.1.data < b.1.data)
        (List.insertionSort route_le qs') :=
      List.Pairwise.imp
        (fun hab => lt_of_le_of_ne hab.1 (fun hdeq => hab.2 (String.ext_iff.mpr hdeq)))
        (hs2.and hne2)
    letI : IsAntisymm (String × Handler) (fun a b => a.1.data < b.1.data) :=
      ⟨fun _ _ hxy hyx => absurd hyx (lt_asymm hxy)⟩
    have hEq : List.insertionSort route_le qs = List.insertionSort route_le qs' :=
      List.eq_of_perm_of_sorted hpp hst1 hst2
    unfold api_doc_gen
    rw [h1', h2', except_bind_ok, except_bind_ok, hEq]

/-- Witness for C3 at concrete inputs: the demo routes, their sorted
route list, and a permutation of them. -/
theorem route_sections_sorted_by_pattern_witness :
    (sorted_routes demo_routes_cab = Except.ok (sorted_routes_of demo_routes_cab) ∧
      List.Sorted (fun a b : String × Handler => a.1 ≤ b.1)
        (sorted_routes_of demo_routes_cab)) ∧
    (demo_routes_cab.Perm demo_routes_acb ∧
      ((sorted_routes_of demo_routes_cab).map Prod.fst).Nodup ∧
      api_doc_gen validator_ok demo_routes_cab =
        api_doc_gen validator_ok demo_routes_acb) := by
  have hcab : sorted_routes demo_routes_cab =
      Except.ok (sorted_routes_of demo_routes_cab) := rfl
  have hacb : sorted_routes demo_routes_acb =
      Except.ok (sorted_routes_of demo_routes_acb) := rfl
  have hperm : demo_routes_cab.Perm demo_routes_acb := by
    unfold demo_routes_cab demo_routes_acb
    exact List.Perm.swap _ _ _
  have hnodup : ((sorted_routes_of demo_routes_cab).map Prod.fst).Nodup := by decide
  exact ⟨⟨hcab, route_sections_sorted_by_pattern.1 demo_routes_cab _ hcab⟩,
    hperm, hnodup,
    route_sections_sorted_by_pattern.2.1 validator_ok _ _ _ _ hperm hcab hacb hnodup⟩

/-- C1: when a present example fails validation, `_validate_example`
raises a `ValidationError` whose message contains the handler type
name, the method name, the slot kind, and the validator's diagnostic;
and the generation run on a route carrying that handler aborts with
that very error (an `Except.error` result carries no rendered
documentation, so the invalid example is never rendered). -/
theorem validation_failure_aborts_run :
    ∀ (v : Validator) (rh : Handler) (m : Method) (slot : Slot) (ex : Json) (diag : String),
      slotExample m slot = some ex →
      v ex (slotSchema m slot) = some diag →
      (_validate_example v rh m slot =
          Except.error (PyError.validationError (validation_message slot rh m diag)) ∧
        str_contains rh.name (validation_message slot rh m diag) ∧
        str_contains m.name (validation_message slot rh m diag) ∧
        str_contains (Slot.str slot) (validation_message slot rh m diag) ∧
        str_contains diag (validation_message slot rh m diag)) ∧
      (∀ (verb url : String),
        verb ∈ HTTP_METHODS →
        rh.members = [(verb, Member.meth m)] →
        rh.isAPIHandler = true →
        (slot = Slot.input ∨ m.input_example = none) →
        api_doc_gen v [Route.tup [RVal.str url, RVal.handler rh]] =
          Except.error (PyError.validationError (validation_message slot rh m diag))) := by
  intro v rh m slot ex diag hex hval
  have hverr : _validate_example v rh m slot =
      Except.error (PyError.validationError (validation_message slot rh m diag)) := by
    simp only [_validate_example, hex, hval]
  constructor
  · refine ⟨hverr, ?_, ?_, ?_, ?_⟩
    · refine ⟨(Slot.str slot ++ "_example for ").data,
        ("." ++ m.name ++ " could not be validated.\n" ++ diag).data, ?_⟩
      simp [validation_message, String.data_append, List.append_assoc]
    · refine ⟨(Slot.str slot ++ "_example for " ++ rh.name ++ ".").data,
        (" could not be validated.\n" ++ diag).data, ?_⟩
      simp [validation_message, String.data_append, List.append_assoc]
    · refine ⟨[], ("_example for " ++ rh.name ++ "." ++ m.name ++
        " could not be validated.\n" ++ diag).data, ?_⟩
      simp [validation_message, String.data_append, List.append_assoc]
    · refine ⟨(Slot.str slot ++ "_example for " ++ rh.name ++ "." ++ m.name ++
        " could not be validated.\n").data, [], ?_⟩
      simp [validation_message, String.data_append, List.append_assoc]
  · intro verb url hverb hmem hapi hprev
    have hmethods : _get_rh_methods rh = [(verb, m)] := by
      unfold _get_rh_methods
      rw [hmem]
      simp [rh_member_filter, List.filterMap_cons, hverb]
    obtain ⟨s1, hs1⟩ : ∃ d, _get_input_schema_doc m = Except.ok d := by
      unfold _get_input_schema_doc _get_schema_doc
      exact cleandoc_ok_of_char _ '*'
        (mem_data_append_left _ _ _ (mem_data_append_left _ _ _
          (mem_data_append_left _ _ _ (mem_data_append_left _ _ _ (by decide)))))
        (by decide)
    obtain ⟨s2, hs2⟩ : ∃ d, _get_output_schema_doc m = Except.ok d := by
      unfold _get_output_schema_doc _get_schema_doc
      exact cleandoc_ok_of_char _ '*'
        (mem_data_append_left _ _ _ (mem_data_append_left _ _ _
          (mem_data_append_left _ _ _ (mem_data_append_left _ _ _ (by decide)))))
        (by decide)
    obtain ⟨s3, hs3⟩ : ∃ d, _get_notes m = Except.ok d := by
      unfold _get_notes
      exact cleandoc_ok_of_char _ '*'
        (mem_data_append_left _ _ _ (mem_data_append_left _ _ _ (by decide)))
        (by decide)
    have hmd : _get_method_doc v rh verb m =
        Except.error (PyError.validationError (validation_message slot rh m diag)) := by
      unfold _get_method_doc
      rw [hs1, except_bind_ok, hs2, except_bind_ok, hs3, except_bind_ok]
      rcases hprev with hs | h0
      · subst hs
        have hie : _get_input_example v rh m =
            Except.error (PyError.validationError
              (validation_message Slot.input rh m diag)) := by
          unfold _get_input_example _get_example_doc
          rw [hverr, except_bind_error]
        rw [hie, except_bind_error]
      · cases slot with
        | input =>
          rw [show slotExample m Slot.input = m.input_example from rfl, h0] at hex
          cases hex
        | output =>
          have hie : _get_input_example v rh m = Except.ok "" := by
            unfold _get_input_example _get_example_doc
            have h1 : _validate_example v rh m Slot.input = Except.ok none := by
              unfold _validate_example
              rw [show slotExample m Slot.input = m.input_example from rfl, h0]
            rw [h1, except_bind_ok]
            rfl
          rw [hie, except_bind_ok]
          have hoe : _get_output_example v rh m =
              Except.error (PyError.validationError
                (validation_message Slot.output rh m diag)) := by
            unfold _get_output_example _get_example_doc
            rw [hverr, except_bind_error]
          rw [hoe, except_bind_error]
    have hrh : _get_rh_doc v rh =
        Except.error (PyError.validationError (validation_message slot rh m diag)) := by
      unfold _get_rh_doc
      rw [hmethods]
      simp only [List.mapM_cons, hmd, except_bind_error]
    have hroutedoc : _get_route_doc v url rh =
        Except.error (PyError.validationError (validation_message slot rh m diag)) := by
      unfold _get_route_doc
      rw [hrh, except_bind_error]
    have hnorm : normalized_routes [Route.tup [RVal.str url, RVal.handler rh]] =
        Except.ok [(url, rh)] := rfl
    have hsorted : sorted_routes [Route.tup [RVal.str url, RVal.handler rh]] =
        Except.ok [(url, rh)] := by
      unfold sorted_routes
      rw [hnorm]
      rfl
    unfold api_doc_gen
    rw [hsorted, except_bind_ok]
    rw [show List.filter (fun pr : String × Handler => pr.2.isAPIHandler) [(url, rh)] =
        [(url, rh)] from by simp [List.filter_cons, hapi]]
    simp only [List.mapM_cons, hroutedoc, except_bind_error]

/-- Witness for C1 at the spec's own scenario: a string example
declared against an integer schema, rejected by the validator. -/
theorem validation_failure_aborts_run_witness :
    slotExample method_bad_example Slot.input = some (Json.str "not an integer") ∧
    validator_reject (Json.str "not an integer")
      (slotSchema method_bad_example Slot.input) = some "is not of type 'integer'" ∧
    ("get" ∈ HTTP_METHODS) ∧
    _validate_example validator_reject handler_bad method_bad_example Slot.input =
      Except.error (PyError.validationError
        (validation_message Slot.input handler_bad method_bad_example
          "is not of type 'integer'")) ∧
    api_doc_gen validator_reject
        [Route.tup [RVal.str "/api", RVal.handler handler_bad]] =
      Except.error (PyError.validationError
        (validation_message Slot.input handler_bad method_bad_example
          "is not of type 'integer'")) := by
  have h := validation_failure_aborts_run validator_reject handler_bad
    method_bad_example Slot.input (Json.str "not an integer")
    "is not of type 'integer'" rfl rfl
  exact ⟨rfl, rfl, by decide, h.1.1, h.2 "get" "/api" (by decide) rfl rfl (Or.inl rfl)⟩

/-- C9 (counterexample): dedenting `"    a\n    b"` and reindenting by
the stripped amount 4 yields `"a\n    b"`, which differs from the
original on its (non-blank) first line even under trailing-whitespace-
insensitive per-line comparison, because `add_indent` leaves the first
line untouched. -/
theorem dedent_reindent_first_line_cex :
    cleandoc "    a\n    b" = Except.ok "a\nb" ∧
    add_indent "a\nb" 4 = "a\n    b" ∧
    (pySplitNl (add_indent "a\nb" 4)).map py_rstrip ≠
      (pySplitNl "    a\n    b").map py_rstrip :=
  ⟨by decide, by decide, by decide⟩

/-- C9 (amended): dedenting a block of lines (at least one non-empty)
and reindenting by the stripped minimum `k` reproduces every line after
the first exactly when it is non-empty and as `k` spaces when it is
blank (so equal up to trailing whitespace on blank lines); the first
line, which `add_indent` does not touch, comes back with its
indentation stripped. -/
theorem dedent_reindent_roundtrip_tail :
    ∀ (l0 : String) (Ltl : List String) (k : Nat),
      (∀ l ∈ l0 :: Ltl, ('\n' : Char) ∉ l.data) →
      ((((l0 :: Ltl).filter (fun s => s != "")).map indent_length).min? = some k) →
      ∃ d, cleandoc (pyJoin "\n" (l0 :: Ltl)) = Except.ok d ∧
        add_indent d k =
          pyJoin "\n" (pySlice l0 k ::
            Ltl.map (fun s => if s = "" then spaces k else s)) := by
  intro l0 Ltl k hnl hmin
  have hsplit : pySplitNl (pyJoin "\n" (l0 :: Ltl)) = l0 :: Ltl :=
    pySplitNl_pyJoin _ (by simp) hnl
  have hd : cleandoc (pyJoin "\n" (l0 :: Ltl)) =
      Except.ok (pyJoin "\n" ((l0 :: Ltl).map (fun s => pySlice s k))) := by
    unfold cleandoc
    rw [hsplit]
    simp only [hmin]
  refine ⟨_, hd, ?_⟩
  have hnl' : ∀ l ∈ (l0 :: Ltl).map (fun s => pySlice s k), ('\n' : Char) ∉ l.data := by
    intro l hl
    obtain ⟨s, hs, rfl⟩ := List.mem_map.mp hl
    rw [pySlice_data]
    intro hmem
    exact hnl s hs (List.drop_subset _ _ hmem)
  have hsplit2 : pySplitNl (pyJoin "\n" ((l0 :: Ltl).map (fun s => pySlice s k))) =
      (l0 :: Ltl).map (fun s => pySlice s k) :=
    pySplitNl_pyJoin _ (by simp) hnl'
  rw [List.map_cons] at hsplit2
  have add_indent_eq : ∀ (f : String) (r : List String) (x : String),
      pySplitNl x = f :: r →
      add_indent x k = pyJoin "\n" (f :: r.map (fun s => spaces k ++ s)) := by
    intro f r x hx
    unfold add_indent
    rw [hx]
  rw [List.map_cons, add_indent_eq _ _ _ hsplit2]
  refine congrArg (pyJoin "\n") ?_
  refine congrArg (List.cons (pySlice l0 k)) ?_
  rw [List.map_map]
  apply List.map_congr_left
  intro s hs
  by_cases hse : s = ""
  · subst hse
    have hempty : pySlice "" k = "" := by
      unfold pySlice
      rw [show ("" : String).data = [] from rfl, List.drop_nil]
    show spaces k ++ pySlice "" k = if ("" : String) = "" then spaces k else ""
    rw [hempty, String.append_empty, if_pos rfl]
  · have hks : k ≤ indent_length s := by
      have hsf : s ∈ (l0 :: Ltl).filter (fun s => s != "") := by
        rw [List.mem_filter]
        exact ⟨List.mem_cons_of_mem _ hs, by simpa using hse⟩
      have hmem : indent_length s ∈
          ((l0 :: Ltl).filter (fun s => s != "")).map indent_length :=
        List.mem_map_of_mem _ hsf
      exact (List.min?_eq_some_iff'.mp hmin).2 _ hmem
    show spaces k ++ pySlice s k = if s = "" then spaces k else s
    rw [if_neg hse]
    exact spaces_append_slice s k hks

/-- Witness for C9's amended theorem at the block
`"    a" / "" / "    b"` with stripped indentation 4. -/
theorem dedent_reindent_roundtrip_tail_witness :
    (∀ l ∈ ("    a" :: ["", "    b"] : List String), ('\n' : Char) ∉ l.data) ∧
    ((((("    a" : String) :: ["", "    b"]).filter
        (fun s => s != "")).map indent_length).min? = some 4) ∧
    (∃ d, cleandoc (pyJoin "\n" ("    a" :: ["", "    b"])) = Except.ok d ∧
      add_indent d 4 = pyJoin "\n" (pySlice "    a" 4 ::
        (["", "    b"] : List String).map (fun s => if s = "" then spaces 4 else s))) :=
  ⟨by decide, by decide,
    dedent_reindent_roundtrip_tail "    a" ["", "    b"] 4 (by decide) (by decide)⟩

end TornadoJson
